import Mathlib

/-!
Verification of STM32F030-CMSIS-Sleep-and-Wake-Example (src/main.c).

The program is a single C file: three interrupt handlers (EXTI0_1, EXTI2_3,
TIM14, plus a SysTick handler), an initialization sequence selected by
compile-time flags, and an infinite main loop that clears the wake-up flag
and executes WFI.

We embed the handlers and the main-loop body as straight-line programs over
a small machine state (the registers the code reads and writes), with the
register semantics the code relies on:

* `EXTI->PR` bits are rc_w1 (write 1 to clear, write 0 no effect).  The
  source says so itself: each handler comment reads "Clear the interrupt by
  *setting* the Pending Reg. bit".  Hence a read-modify-write `EXTI->PR |= m`
  writes back every bit that currently reads 1 and therefore clears every
  pending bit, not just those in `m`.
* `TIM14->SR` status bits are rc_w0 (write 0 to clear, write 1 no effect),
  so `TIM14->SR &= ~TIM_SR_UIF` clears exactly UIF.
* `PWR_CR_CWUF` is a write-1-to-clear command bit: `PWR->CR |= PWR_CR_CWUF`
  clears the wake-up flag, which we model as the boolean `wuf`.

Busy-wait `for` loops touch only a local counter and are modelled as `delay`
(no machine-state effect).  The button-release polling `while` loops spin on
a register bit with no body; with the inputs held fixed during the handler
they either exit at once or never, so the interpreter returns `none`
(divergence) when the spin condition holds and passes the state through
otherwise.
-/

/-- Machine state: the registers read or written by the program.
`odr`/`idr` are GPIOA output/input data registers, `pr` is `EXTI->PR`,
`timSr` is `TIM14->SR`, `wuf` is the PWR wake-up flag (set by hardware on a
wake event, cleared by writing `PWR_CR_CWUF`), `sleeping` records that the
core has executed WFI. -/
structure MachineState where
  odr : Nat
  idr : Nat
  pr : Nat
  timSr : Nat
  wuf : Bool
  sleeping : Bool
deriving DecidableEq, Repr

/-- Register-mask constants from the CMSIS header, as used by `src/main.c`. -/
def GPIO_ODR_3 : Nat := 8

def GPIO_ODR_4 : Nat := 16

def GPIO_ODR_5 : Nat := 32

def GPIO_IDR_0 : Nat := 1

def GPIO_IDR_1 : Nat := 2

def GPIO_IDR_2 : Nat := 4

def EXTI_PR_PR0 : Nat := 1

def EXTI_PR_PR1 : Nat := 2

def EXTI_PR_PR2 : Nat := 4

def TIM_SR_UIF : Nat := 1

/-- The primitive statements occurring in the handlers and the main loop of
`src/main.c`.
`setODR m` is `GPIOA->ODR |= m`; `clearODR m` is `GPIOA->ODR &= ~m`;
`toggleODR m` is `GPIOA->ODR ^= m`; `delay n` is `for(x=0;x<n;x++);`;
`waitWhileODR m` is `while(GPIOA->ODR & m);`;
`waitUntilIDR m` is `while(!(GPIOA->IDR & m));`;
`prW1 m` is `EXTI->PR |= m` on the rc_w1 pending register;
`srW0 m` is `TIM14->SR &= ~m` on the rc_w0 status register;
`clearCWUF` is `PWR->CR |= PWR_CR_CWUF`; `wfi` is `__WFI()`. -/
inductive Op where
  | setODR (m : Nat)
  | clearODR (m : Nat)
  | toggleODR (m : Nat)
  | delay (n : Nat)
  | waitWhileODR (m : Nat)
  | waitUntilIDR (m : Nat)
  | prW1 (m : Nat)
  | srW0 (m : Nat)
  | clearCWUF
  | wfi
deriving DecidableEq, Repr

/-- The C expression `v & ~m`: clear the bits of `m` in `v`.  Written with
XOR so that it evaluates by kernel reduction (it equals `Nat.ldiff v m`,
see `clearMask_eq_ldiff`). -/
def clearMask (v m : Nat) : Nat :=
  v ^^^ (v &&& m)

/-- Effect of one primitive statement.  `none` means the statement never
terminates (a polling loop whose condition holds with the inputs fixed).
`prW1 m` performs the read-modify-write `EXTI->PR |= m`: it writes the value
`pr ||| m`, and on the rc_w1 register every bit written 1 is cleared, so the
new value is `pr & ~(pr ||| m)`.
`srW0 m` writes `timSr & ~m`; on the rc_w0 register a bit stays set only
if it was set and is written 1, so the new value is
`timSr &&& (timSr & ~m)`. -/
def applyOp (op : Op) (s : MachineState) : Option MachineState :=
  match op with
  | .setODR m => some { s with odr := s.odr ||| m }
  | .clearODR m => some { s with odr := clearMask s.odr m }
  | .toggleODR m => some { s with odr := s.odr ^^^ m }
  | .delay _ => some s
  | .waitWhileODR m => if s.odr &&& m ≠ 0 then none else some s
  | .waitUntilIDR m => if s.idr &&& m = 0 then none else some s
  | .prW1 m => some { s with pr := clearMask s.pr (s.pr ||| m) }
  | .srW0 m => some { s with timSr := s.timSr &&& clearMask s.timSr m }
  | .clearCWUF => some { s with wuf := false }
  | .wfi => some { s with sleeping := true }

/-- Run a straight-line program; `none` if any statement diverges. -/
def exec : List Op → MachineState → Option MachineState
  | [], s => some s
  | op :: rest, s =>
    match applyOp op s with
    | none => none
    | some s' => exec rest s'

/-- Run a straight-line program, returning the state after each statement. -/
def execTrace : List Op → MachineState → Option (List MachineState)
  | [], _ => some []
  | op :: rest, s =>
    match applyOp op s with
    | none => none
    | some s' =>
      match execTrace rest s' with
      | none => none
      | some l => some (s' :: l)

/-- Body of the `EXTI->PR & EXTI_PR_PR0` branch of `EXTI0_1_IRQHandler`
(src/main.c lines 178-185): turn on the LEDs, short delay, spin while
`GPIOA->ODR & GPIO_IDR_0` (note: ODR, not IDR), long pause, clear the
pending bit. -/
def pa0Branch : List Op :=
  [Op.setODR (GPIO_ODR_3 ||| GPIO_ODR_4 ||| GPIO_ODR_5),
   Op.delay 65000,
   Op.waitWhileODR GPIO_IDR_0,
   Op.delay 2000000,
   Op.prW1 EXTI_PR_PR0]

/-- Body of the `EXTI->PR & EXTI_PR_PR1` branch of `EXTI0_1_IRQHandler`
(src/main.c lines 187-194). -/
def pa1Branch : List Op :=
  [Op.clearODR (GPIO_ODR_3 ||| GPIO_ODR_4 ||| GPIO_ODR_5),
   Op.delay 65000,
   Op.waitWhileODR GPIO_IDR_1,
   Op.delay 2000000,
   Op.prW1 EXTI_PR_PR1]

/-- `EXTI0_1_IRQHandler` (src/main.c lines 175-196): an if / else-if on the
pending register selects the PA0 branch, the PA1 branch, or nothing. -/
def EXTI0_1_IRQHandler (s : MachineState) : Option MachineState :=
  if s.pr &&& EXTI_PR_PR0 ≠ 0 then exec pa0Branch s
  else if s.pr &&& EXTI_PR_PR1 ≠ 0 then exec pa1Branch s
  else some s

/-- Body of `EXTI2_3_IRQHandler` (src/main.c lines 207-218).  The pending
check `if( EXTI->PR & EXTI_PR_PR2 )` is commented out in the source, so the
body runs unconditionally: toggle the LEDs, delay, spin until
`GPIOA->IDR & GPIO_IDR_2`, pause, clear the pending bit. -/
def exti23Body : List Op :=
  [Op.toggleODR (GPIO_ODR_3 ||| GPIO_ODR_4 ||| GPIO_ODR_5),
   Op.delay 100000,
   Op.waitUntilIDR GPIO_IDR_2,
   Op.delay 2000000,
   Op.prW1 EXTI_PR_PR2]

/-- `EXTI2_3_IRQHandler` (src/main.c lines 207-218): runs its body without
inspecting the pending register. -/
def EXTI2_3_IRQHandler (s : MachineState) : Option MachineState :=
  exec exti23Body s

/-- Body of `TIM14_IRQHandler` (src/main.c lines 233-247): two on-delay-off
flashes of the PA4 LED separated by a long pause, then clear UIF. -/
def tim14Body : List Op :=
  [Op.setODR GPIO_ODR_4,
   Op.delay 15000,
   Op.clearODR GPIO_ODR_4,
   Op.delay 2000000,
   Op.setODR GPIO_ODR_4,
   Op.delay 15000,
   Op.clearODR GPIO_ODR_4,
   Op.srW0 TIM_SR_UIF]

/-- `TIM14_IRQHandler` (src/main.c lines 233-247). -/
def TIM14_IRQHandler (s : MachineState) : Option MachineState :=
  exec tim14Body s

/-- Body of `SysTick_Handler` (src/main.c lines 261-265): toggle the PA5
LED. -/
def sysTickBody : List Op :=
  [Op.toggleODR GPIO_ODR_5]

/-- `SysTick_Handler` (src/main.c lines 261-265). -/
def SysTick_Handler (s : MachineState) : Option MachineState :=
  exec sysTickBody s

/-- Body of the main cyclic sleep loop (src/main.c lines 421-426):
`PWR->CR |= PWR_CR_CWUF; TIM14->SR &= ~TIM_SR_UIF; __WFI();`. -/
def mainLoopBody : List Op :=
  [Op.clearCWUF, Op.srW0 TIM_SR_UIF, Op.wfi]

/-- Run `n` iterations of the main `while(1)` loop. -/
def mainLoopRun : Nat → MachineState → Option MachineState
  | 0, s => some s
  | n + 1, s =>
    match exec mainLoopBody s with
    | none => none
    | some s' => mainLoopRun n s'

/-- The sleep-mode compile-time flags of src/main.c lines 126-128: exactly
one of `__STANDBY_MODE`, `__STOP_MODE`, `__SLEEP_MODE` is uncommented. -/
inductive PowerMode where
  | sleepMode
  | stopMode
  | standbyMode
deriving DecidableEq, Repr

/-- The wake-source compile-time flags of src/main.c lines 158-160:
`__BUTTON_INTERRUPT` (EXTI lines 0-2), `__TIMER_INTERRUPT` (TIM14 overflow),
`__SYSTICK_INTERRUPT` (SysTick). -/
inductive WakeSource where
  | edgeInterrupt
  | periodicTimer
  | periodicTick
deriving DecidableEq, Repr

/-- A build configuration: one power mode and any combination of the three
interrupt-source flags ("Multiple interrupts may be set up simultaneously",
src/main.c line 133). -/
structure BuildConfig where
  mode : PowerMode
  button : Bool
  timer : Bool
  tick : Bool
deriving DecidableEq, Repr

/-- Interrupt request lines used by the program. -/
inductive Irq where
  | exti01
  | exti23
  | tim14
  | sysTick
deriving DecidableEq, Repr

/-- The initialization actions performed by `main` before the loop
(src/main.c lines 282-416).  Every constructor is a register write or a
CMSIS call that writes registers; `main` contains no other kind of
initialization action. -/
inductive InitStep where
  | rccAhbenrGpioAEn
  | gpioPupdrPullups
  | gpioModerOutputs
  | rccApb2SyscfgEn
  | extiImrUnmask (m : Nat)
  | extiRtsrRising (m : Nat)
  | nvicEnable (i : Irq)
  | nvicSetPriority (i : Irq) (p : Nat)
  | rccApb1Tim14En
  | tim14Psc (v : Nat)
  | tim14Arr (v : Nat)
  | tim14Cr1Cen
  | tim14DierUie
  | sysTickConfig (ticks : Nat)
  | rccApb1PwrEn
  | scbSleepDeep
  | pwrCrPdds
  | pwrCrLpds
  | pwrCsrEwup1
deriving DecidableEq, Repr

/-- GPIO setup common to every configuration (src/main.c lines 282-291). -/
def gpioInit : List InitStep :=
  [InitStep.rccAhbenrGpioAEn, InitStep.gpioPupdrPullups,
   InitStep.gpioModerOutputs]

/-- `__BUTTON_INTERRUPT` setup (src/main.c lines 320-334): unmask EXTI lines
0-2, rising-edge trigger, enable EXTI0_1 at priority 1 and EXTI2_3 at
priority 0 (0 = highest). -/
def buttonInit : List InitStep :=
  [InitStep.rccApb2SyscfgEn,
   InitStep.extiImrUnmask 7,
   InitStep.extiRtsrRising 7,
   InitStep.nvicEnable Irq.exti01,
   InitStep.nvicSetPriority Irq.exti01 1,
   InitStep.nvicEnable Irq.exti23,
   InitStep.nvicSetPriority Irq.exti23 0]

/-- `__TIMER_INTERRUPT` setup (src/main.c lines 352-361): prescaler 8000-1
for a 1 ms tick at 8 MHz, auto-reload 10000-1 for a 10 s overflow, start the
timer, enable the update interrupt. -/
def timerInit : List InitStep :=
  [InitStep.rccApb1Tim14En,
   InitStep.rccApb2SyscfgEn,
   InitStep.tim14Psc (8000 - 1),
   InitStep.tim14Arr (10000 - 1),
   InitStep.tim14Cr1Cen,
   InitStep.tim14DierUie,
   InitStep.nvicEnable Irq.tim14,
   InitStep.nvicSetPriority Irq.tim14 1]

/-- `__SYSTICK_INTERRUPT` setup (src/main.c lines 374-376). -/
def tickInit : List InitStep :=
  [InitStep.sysTickConfig 16000000,
   InitStep.nvicSetPriority Irq.sysTick 0]

/-- Power-mode setup (src/main.c lines 381-416): standby sets SLEEPDEEP,
PDDS, LPDS and enables WKUP1; stop sets SLEEPDEEP and LPDS; sleep only
enables the PWR clock. -/
def modeInit : PowerMode → List InitStep
  | PowerMode.standbyMode =>
      [InitStep.rccApb1PwrEn, InitStep.scbSleepDeep, InitStep.pwrCrPdds,
       InitStep.pwrCrLpds, InitStep.pwrCsrEwup1]
  | PowerMode.stopMode =>
      [InitStep.rccApb1PwrEn, InitStep.scbSleepDeep, InitStep.pwrCrLpds]
  | PowerMode.sleepMode =>
      [InitStep.rccApb1PwrEn]

/-- The full initialization sequence of `main` for a build configuration,
in source order (src/main.c lines 282-416). -/
def initSteps (c : BuildConfig) : List InitStep :=
  gpioInit
    ++ (if c.button then buttonInit else [])
    ++ (if c.timer then timerInit else [])
    ++ (if c.tick then tickInit else [])
    ++ modeInit c.mode

/-- Whether an initialization step inspects or validates the chosen
(mode, source) combination.  Every step of `InitStep` is a plain register
write, so none does. -/
def stepChecksConfig : InitStep → Bool := fun _ => false

/-- Whether initialization detects a misconfigured (mode, source) pair. -/
def detectsMisconfig (c : BuildConfig) : Bool :=
  (initSteps c).any stepChecksConfig

/-- The priority assigned to an interrupt by the last `NVIC_SetPriority`
call of an initialization sequence, if any. -/
def lastPrioritySet : List InitStep → Irq → Option Nat
  | [], _ => none
  | step :: rest, i =>
    match lastPrioritySet rest i with
    | some p => some p
    | none =>
      match step with
      | InitStep.nvicSetPriority j p => if j = i then some p else none
      | _ => none

/-- NVIC preemption rule: a numerically lower priority value preempts a
numerically higher one (src/main.c line 331: 0 = highest). -/
def canPreempt (p q : Nat) : Bool :=
  p < q

/-- The wake-event classes produced by the three wake sources. -/
inductive WakeEvent where
  | extiLine
  | timerOverflow
  | sysTickTick
deriving DecidableEq, Repr

/-- The wake event a wake source generates. -/
def eventOf : WakeSource → WakeEvent
  | WakeSource.edgeInterrupt => WakeEvent.extiLine
  | WakeSource.periodicTimer => WakeEvent.timerOverflow
  | WakeSource.periodicTick => WakeEvent.sysTickTick

/-- Modelled from the spec: which wake events bring the core out of WFI in
each power mode (src/ contains only register writes; the wake capability is
hardware behaviour, documented in the spec's policy table and in the
source's sleep-mode summary, src/main.c lines 80-120).  Active-Sleep wakes
on any interrupt; Stop halts the HSI/HSE oscillators so only EXTI line
interrupts wake it; Standby halts all functionality and is left only via
the WKUP pin or reset, so none of the three interrupt sources wakes it. -/
def wakesFrom : PowerMode → WakeEvent → Bool
  | PowerMode.sleepMode, _ => true
  | PowerMode.stopMode, WakeEvent.extiLine => true
  | PowerMode.stopMode, _ => false
  | PowerMode.standbyMode, _ => false

/-- Modelled from the spec: whether leaving the power mode preserves the
execution context.  Waking from Standby "is basically a reset of the chip"
(src/main.c lines 384-385), so the interrupted main loop is not resumed. -/
def preservesContext : PowerMode → Bool
  | PowerMode.standbyMode => false
  | _ => true

/-- The main loop resumes after a wake event from source `w` in mode `m`
exactly when the event wakes the core and the mode preserves the execution
context. -/
def loopResumes (m : PowerMode) (w : WakeSource) : Bool :=
  wakesFrom m (eventOf w) && preservesContext m

/-- Modelled from the spec, for comparison with `loopResumes`: the
compatibility table of spec section 4.1 in the spec's own words —
Active-Sleep is "wakeable by any enabled interrupt, including periodic
internal timers"; Stop is "wakeable by any enabled external-interrupt
line"; Standby is "wakeable only by a dedicated wake pin or external
reset", which none of the three selectable sources is. -/
def specCompatible : PowerMode → WakeSource → Bool
  | PowerMode.sleepMode, _ => true
  | PowerMode.stopMode, WakeSource.edgeInterrupt => true
  | PowerMode.stopMode, _ => false
  | PowerMode.standbyMode, _ => false

/-- The main-loop body is the same for every build configuration: the three
statements at src/main.c lines 421-426 lie outside every `#ifdef`. -/
def mainLoopBodyOf (_ : BuildConfig) : List Op :=
  mainLoopBody

/-- Every statement of the program that runs after initialization: both
branches of `EXTI0_1_IRQHandler`, `EXTI2_3_IRQHandler`, `TIM14_IRQHandler`,
`SysTick_Handler` and the main-loop body. -/
def allProgramOps : List Op :=
  pa0Branch ++ pa1Branch ++ exti23Body ++ tim14Body ++ sysTickBody
    ++ mainLoopBody

/-- Number of maximal runs of `true` in a boolean trace: the number of
distinct ON pulses of an indicator. -/
def countPulses : List Bool → Nat
  | [] => 0
  | true :: rest => 1 + countDrop rest
  | false :: rest => countPulses rest
where
  /-- Skip the current `true` run, then continue counting. -/
  countDrop : List Bool → Nat
    | [] => 0
    | true :: rest => countDrop rest
    | false :: rest => countPulses rest

/-- The edge-interrupt + active-sleep build configuration (scenarios A-C of
the spec). -/
def edgeSleepConfig : BuildConfig :=
  { mode := PowerMode.sleepMode, button := true, timer := false,
    tick := false }

/-- The periodic-timer + active-sleep build configuration (scenario D, and
the configuration checked in at src/main.c lines 128 and 159). -/
def timerSleepConfig : BuildConfig :=
  { mode := PowerMode.sleepMode, button := false, timer := true,
    tick := false }

/-- A machine state with every register zero (the reset state: GPIOA->ODR
resets to 0). -/
def resetState : MachineState :=
  { odr := 0, idr := 0, pr := 0, timSr := 0, wuf := false, sleeping := false }

/-- Entry state with both EXTI line 0 and line 1 pending. -/
def c1aIn : MachineState :=
  { resetState with pr := 3 }

/-- State on return of `EXTI0_1_IRQHandler` from `c1aIn`. -/
def c1aOut : MachineState :=
  { resetState with odr := 56, pr := 0 }

/-- Entry state with EXTI line 2 pending and the PA2 button released. -/
def c1bIn : MachineState :=
  { resetState with idr := 4, pr := 4 }

/-- State on return of `EXTI2_3_IRQHandler` from `c1bIn`. -/
def c1bOut : MachineState :=
  { resetState with odr := 56, idr := 4, pr := 0 }

/-- Entry state with the TIM14 update flag set. -/
def c1cIn : MachineState :=
  { resetState with timSr := 1 }

/-- State on return of `TIM14_IRQHandler` from `c1cIn`. -/
def c1cOut : MachineState :=
  resetState

/-- A state with the TIM14 update flag set, entering the main loop. -/
def c2In : MachineState :=
  { resetState with timSr := 1 }

/-- Entry state for EXTI2_3 with no EXTI line pending and the PA2 button
released. -/
def c4In : MachineState :=
  { resetState with idr := 4 }

/-- State on return of `EXTI2_3_IRQHandler` from `c4In`: the LEDs were
toggled although no line was pending. -/
def c4Out : MachineState :=
  { resetState with odr := 56, idr := 4 }

/-- Entry state for EXTI0_1 with only line 0 pending and all LEDs off. -/
def c5In : MachineState :=
  { resetState with pr := 1 }

/-- State on return of `EXTI0_1_IRQHandler` from `c5In`: ODR bits 3, 4 and
5 are all set. -/
def c5Out : MachineState :=
  { resetState with odr := 56 }

/-- Entry state for scenario A: line 0 pending, LEDs off, core awake. -/
def c6In : MachineState :=
  { resetState with pr := 1 }

/-- The mask of ODR bits a statement can raise (set or toggle); zero for
statements that never raise an ODR bit. -/
def odrSetMask : Op → Nat
  | Op.setODR m => m
  | Op.toggleODR m => m
  | _ => 0

/-- State after `GPIOA->ODR |= 56` from reset. -/
def c10Out : MachineState :=
  { resetState with odr := 56 }

/-! ## Helper lemmas -/

/-- `clearMask` computes the bitwise difference `v & ~m`. -/
theorem clearMask_eq_ldiff (v m : Nat) : clearMask v m = Nat.ldiff v m := by
  refine Nat.eq_of_testBit_eq fun i => ?_
  cases hv : v.testBit i <;> cases hm : m.testBit i <;>
    simp [clearMask, Nat.testBit_xor, Nat.testBit_land, Nat.testBit_ldiff,
      hv, hm]

/-- A read-modify-write `|=` on the rc_w1 pending register clears every
pending bit: the value written back, `a ||| b`, has a 1 wherever `a` does. -/
theorem clearMask_self_or (a b : Nat) : clearMask a (a ||| b) = 0 := by
  rw [clearMask_eq_ldiff]
  refine Nat.eq_of_testBit_eq fun i => ?_
  cases h : a.testBit i <;>
    simp [Nat.testBit_ldiff, Nat.testBit_lor, h]

/-- On the rc_w0 status register, writing back `x & ~m` leaves exactly
`x` with the `m` bits cleared. -/
theorem and_clearMask_self (x m : Nat) :
    x &&& clearMask x m = clearMask x m := by
  simp only [clearMask_eq_ldiff]
  refine Nat.eq_of_testBit_eq fun i => ?_
  simp [Nat.testBit_ldiff, Nat.testBit_land]

/-- C truthiness of `x & 1` is bit 0 of `x`. -/
theorem and_one_ne (n : Nat) : (n &&& 1 ≠ 0) ↔ n.testBit 0 = true := by
  rw [show (1 : Nat) = 2 ^ 0 by norm_num, Nat.and_two_pow]
  cases h : n.testBit 0 <;> simp [h]

/-- C truthiness of `x & 2` is bit 1 of `x`. -/
theorem and_two_ne (n : Nat) : (n &&& 2 ≠ 0) ↔ n.testBit 1 = true := by
  rw [show (2 : Nat) = 2 ^ 1 by norm_num, Nat.and_two_pow]
  cases h : n.testBit 1 <;> simp [h]

/-- Execution of the PA0 branch: diverges when ODR bit 0 is set (the
release-wait loop spins on ODR), otherwise turns on ODR bits 3-5 and
performs the rc_w1 pending-register write. -/
theorem exec_pa0_eq (s : MachineState) :
    exec pa0Branch s =
      if s.odr % 2 = 1 then none
      else some { s with odr := s.odr ||| 56,
                         pr := clearMask s.pr (s.pr ||| 1) } := by
  by_cases hg : s.odr % 2 = 1 <;>
    simp [pa0Branch, exec, applyOp, GPIO_ODR_3, GPIO_ODR_4, GPIO_ODR_5,
      GPIO_IDR_0, EXTI_PR_PR0, hg]

/-- Execution of the PA1 branch: diverges when ODR bit 1 is set after the
LEDs are turned off, otherwise clears ODR bits 3-5 and performs the rc_w1
pending-register write. -/
theorem exec_pa1_eq (s : MachineState) :
    exec pa1Branch s =
      if clearMask s.odr 56 &&& 2 = 0
      then some { s with odr := clearMask s.odr 56,
                         pr := clearMask s.pr (s.pr ||| 2) }
      else none := by
  by_cases hg : clearMask s.odr 56 &&& 2 = 0 <;>
    simp [pa1Branch, exec, applyOp, GPIO_ODR_3, GPIO_ODR_4, GPIO_ODR_5,
      GPIO_IDR_1, EXTI_PR_PR1, hg]

/-- Execution of the EXTI2_3 body: diverges while the PA2 button reads low,
otherwise toggles ODR bits 3-5 and performs the rc_w1 pending-register
write. -/
theorem exec_exti23_eq (s : MachineState) :
    exec exti23Body s =
      if s.idr &&& 4 = 0 then none
      else some { s with odr := s.odr ^^^ 56,
                         pr := clearMask s.pr (s.pr ||| 4) } := by
  by_cases hg : s.idr &&& 4 = 0 <;>
    simp [exti23Body, exec, applyOp, GPIO_ODR_3, GPIO_ODR_4, GPIO_ODR_5,
      GPIO_IDR_2, EXTI_PR_PR2, hg]

/-- Execution of the TIM14 handler body always terminates: two set/clear
pulses of ODR bit 4 and the rc_w0 status-register write. -/
theorem exec_tim14_eq (s : MachineState) :
    exec tim14Body s =
      some { s with
              odr := clearMask (clearMask (s.odr ||| 16) 16 ||| 16) 16,
              timSr := s.timSr &&& clearMask s.timSr 1 } := by
  simp [tim14Body, exec, applyOp, GPIO_ODR_4, TIM_SR_UIF]

/-- Execution of the main-loop body always terminates: it clears the wake
flag, clears UIF, and puts the core to sleep. -/
theorem exec_mainLoopBody_eq (s : MachineState) :
    exec mainLoopBody s =
      some { s with wuf := false,
                    timSr := s.timSr &&& clearMask s.timSr 1,
                    sleeping := true } := by
  simp [mainLoopBody, exec, applyOp, TIM_SR_UIF]

/-- C1: for every state of the pending/status registers on entry, when a
handler returns, every pending flag that can have triggered its invocation
is cleared: `EXTI0_1_IRQHandler` leaves PR0 and PR1 clear (in particular
when both lines 0 and 1 were pending on entry), `EXTI2_3_IRQHandler` leaves
PR2 clear, and `TIM14_IRQHandler` leaves UIF clear. -/
theorem handlers_clear_triggering_pending (s s' : MachineState) :
    (EXTI0_1_IRQHandler s = some s' →
      s'.pr.testBit 0 = false ∧ s'.pr.testBit 1 = false) ∧
    (EXTI2_3_IRQHandler s = some s' → s'.pr.testBit 2 = false) ∧
    (TIM14_IRQHandler s = some s' → s'.timSr.testBit 0 = false) := by
  refine ⟨?_, ?_, ?_⟩
  · intro h
    unfold EXTI0_1_IRQHandler at h
    by_cases h0 : s.pr &&& EXTI_PR_PR0 ≠ 0
    · rw [if_pos h0, exec_pa0_eq] at h
      split at h
      · exact absurd h (by simp)
      · rw [Option.some_inj] at h
        subst h
        simp [clearMask_self_or]
    · rw [if_neg h0] at h
      by_cases h1 : s.pr &&& EXTI_PR_PR1 ≠ 0
      · rw [if_pos h1, exec_pa1_eq] at h
        split at h
        · rw [Option.some_inj] at h
          subst h
          simp [clearMask_self_or]
        · exact absurd h (by simp)
      · rw [if_neg h1, Option.some_inj] at h
        subst h
        constructor
        · simpa using mt (and_one_ne s.pr).2 (by simpa [EXTI_PR_PR0] using h0)
        · simpa using mt (and_two_ne s.pr).2 (by simpa [EXTI_PR_PR1] using h1)
  · intro h
    unfold EXTI2_3_IRQHandler at h
    rw [exec_exti23_eq] at h
    split at h
    · exact absurd h (by simp)
    · rw [Option.some_inj] at h
      subst h
      simp [clearMask_self_or]
  · intro h
    unfold TIM14_IRQHandler at h
    rw [exec_tim14_eq, Option.some_inj] at h
    subst h
    show (s.timSr &&& clearMask s.timSr 1).testBit 0 = false
    rw [and_clearMask_self, clearMask_eq_ldiff, Nat.testBit_ldiff]
    simp

/-- Witness for C1: each handler applied at a concrete entry state with its
lines pending (both lines for EXTI0_1) returns with the flags cleared. -/
theorem handlers_clear_triggering_pending_witness :
    ((c1aOut.pr.testBit 0 = false ∧ c1aOut.pr.testBit 1 = false) ∧
      c1bOut.pr.testBit 2 = false) ∧ c1cOut.timSr.testBit 0 = false :=
  ⟨⟨(handlers_clear_triggering_pending c1aIn c1aOut).1 (by decide),
    (handlers_clear_triggering_pending c1bIn c1bOut).2.1 (by decide)⟩,
    (handlers_clear_triggering_pending c1cIn c1cOut).2.2 (by decide)⟩

/-- C truthiness of `x & 4` is bit 2 of `x`. -/
theorem and_four_ne (n : Nat) : (n &&& 4 ≠ 0) ↔ n.testBit 2 = true := by
  rw [show (4 : Nat) = 2 ^ 2 by norm_num, Nat.and_two_pow]
  cases h : n.testBit 2 <;> simp [h]

/-- If bit 0 is clear, `x & 1` is zero. -/
theorem and_one_eq_zero (n : Nat) (h : n.testBit 0 = false) : n &&& 1 = 0 := by
  by_contra hc
  exact absurd ((and_one_ne n).1 hc) (by simp [h])

/-- If bit 1 is clear, `x & 2` is zero. -/
theorem and_two_eq_zero (n : Nat) (h : n.testBit 1 = false) : n &&& 2 = 0 := by
  by_contra hc
  exact absurd ((and_two_ne n).1 hc) (by simp [h])

/-- Bit 0 clear means the number is even. -/
theorem mod_two_ne_one_of_testBit0 (n : Nat) (h : n.testBit 0 = false) :
    n % 2 ≠ 1 := by
  simp [Nat.testBit_zero] at h
  omega

/-- Bit 0 clear gives remainder 0 mod 2. -/
theorem mod_two_eq_zero_of_testBit0 (n : Nat) (h : n.testBit 0 = false) :
    n % 2 = 0 := by
  have := mod_two_ne_one_of_testBit0 n h
  omega

/-- Trace of the PA0 branch when ODR bit 0 is clear: the LEDs go on at the
first statement and stay on at every later statement; the final statement
performs the pending-register write. -/
theorem execTrace_pa0_eq (s : MachineState) (h : ¬s.odr % 2 = 1) :
    execTrace pa0Branch s =
      some [{ s with odr := s.odr ||| 56 },
            { s with odr := s.odr ||| 56 },
            { s with odr := s.odr ||| 56 },
            { s with odr := s.odr ||| 56 },
            { s with odr := s.odr ||| 56,
                     pr := clearMask s.pr (s.pr ||| 1) }] := by
  simp [execTrace, applyOp, pa0Branch, GPIO_ODR_3, GPIO_ODR_4, GPIO_ODR_5,
    GPIO_IDR_0, EXTI_PR_PR0, h]

/-- C2 counterexample: the statement executed immediately after the
wake-flag clear in the main-loop body is the TIM14 status-register write,
not the sleep instruction, and from a state with UIF set that intervening
statement changes the machine state. -/
theorem wake_clear_not_immediately_before_wfi :
    mainLoopBody.get? 0 = some Op.clearCWUF ∧
    mainLoopBody.get? 1 = some (Op.srW0 TIM_SR_UIF) ∧
    mainLoopBody.get? 1 ≠ some Op.wfi ∧
    applyOp (Op.srW0 TIM_SR_UIF) c2In ≠ some c2In := by
  decide

/-- C2 (amended): in every iteration of the main loop the wake-up flag is
cleared before the sleep instruction; one statement intervenes — the
unguarded TIM14 UIF clear — and it neither re-sets the wake flag nor
touches any other register, so the core reaches WFI with the wake flag
clear. -/
theorem wake_clear_before_wfi_with_uif_clear_between :
    mainLoopBody = [Op.clearCWUF, Op.srW0 TIM_SR_UIF, Op.wfi] ∧
    ∀ s : MachineState, ∃ s', exec mainLoopBody s = some s' ∧
      s'.wuf = false ∧ s'.sleeping = true ∧ s'.odr = s.odr ∧
      s'.pr = s.pr ∧ s'.idr = s.idr ∧ s'.timSr.testBit 0 = false := by
  refine ⟨rfl, fun s => ⟨_, exec_mainLoopBody_eq s, rfl, rfl, rfl, rfl, rfl, ?_⟩⟩
  show (s.timSr &&& clearMask s.timSr 1).testBit 0 = false
  rw [and_clearMask_self, clearMask_eq_ldiff, Nat.testBit_ldiff]
  simp

/-- C9: for every build configuration — the loop body lies outside every
`#ifdef` — each iteration of the main loop clears TIM14's UIF after the
wake-flag clear and before the sleep instruction, and the core reaches WFI
with UIF clear. -/
theorem loop_clears_uif_unconditionally :
    ∀ c : BuildConfig,
      mainLoopBodyOf c = [Op.clearCWUF, Op.srW0 TIM_SR_UIF, Op.wfi] ∧
      ∀ s : MachineState, ∃ s', exec (mainLoopBodyOf c) s = some s' ∧
        s'.timSr.testBit 0 = false ∧ s'.sleeping = true := by
  refine fun c => ⟨rfl, fun s => ⟨_, exec_mainLoopBody_eq s, ?_, rfl⟩⟩
  show (s.timSr &&& clearMask s.timSr 1).testBit 0 = false
  rw [and_clearMask_self, clearMask_eq_ldiff, Nat.testBit_ldiff]
  simp

/-- C4 counterexample: entered with no pending line at all (PR2 and PR3 both
clear), `EXTI2_3_IRQHandler` still performs its visible work — it toggles
the LED outputs — so it does not identify the firing line before acting. -/
theorem exti23_acts_without_pending_check :
    c4In.pr.testBit 2 = false ∧ c4In.pr.testBit 3 = false ∧
    EXTI2_3_IRQHandler c4In = some c4Out ∧ c4Out.odr ≠ c4In.odr := by
  decide

/-- C4 (amended): `EXTI0_1_IRQHandler` checks the pending register on entry
and performs no work when neither of its lines is pending, while
`EXTI2_3_IRQHandler` performs its visible work unconditionally — its
pending check is commented out in the source (only line 2 is armed) — and
always clears PR2. -/
theorem exti01_checks_exti23_does_not (s : MachineState) :
    (s.pr.testBit 0 = false → s.pr.testBit 1 = false →
      EXTI0_1_IRQHandler s = some s) ∧
    (s.idr.testBit 2 = true →
      EXTI2_3_IRQHandler s =
        some { s with odr := s.odr ^^^ 56,
                      pr := clearMask s.pr (s.pr ||| 4) }) := by
  constructor
  · intro h0 h1
    unfold EXTI0_1_IRQHandler
    rw [if_neg, if_neg]
    · simp [EXTI_PR_PR1, and_two_eq_zero s.pr h1]
    · simp [EXTI_PR_PR0, and_one_eq_zero s.pr h0]
  · intro h2
    unfold EXTI2_3_IRQHandler
    rw [exec_exti23_eq, if_neg]
    exact (and_four_ne s.idr).2 h2

/-- Witness for C4 (amended): at a concrete state with nothing pending and
the PA2 button released, EXTI0_1 is a no-op while EXTI2_3 toggles the LEDs
and performs the pending-register write. -/
theorem exti01_checks_exti23_does_not_witness :
    EXTI0_1_IRQHandler c4In = some c4In ∧
    EXTI2_3_IRQHandler c4In =
      some { c4In with odr := c4In.odr ^^^ 56,
                       pr := clearMask c4In.pr (c4In.pr ||| 4) } :=
  ⟨(exti01_checks_exti23_does_not c4In).1 (by decide) (by decide),
   (exti01_checks_exti23_does_not c4In).2 (by decide)⟩

/-- C5 (code evaluated at the failing input): with only line 0 pending and
every LED off, `EXTI0_1_IRQHandler` — whose source comment reads "Turn ON
PA3 LED" — returns with ODR bits 3, 4 and 5 all set: it drives the PA4 and
PA5 indicators as well as its own. -/
theorem button_handler_drives_all_three_leds :
    EXTI0_1_IRQHandler c5In = some c5Out ∧
    c5In.odr.testBit 4 = false ∧ c5In.odr.testBit 5 = false ∧
    c5Out.odr.testBit 3 = true ∧ c5Out.odr.testBit 4 = true ∧
    c5Out.odr.testBit 5 = true := by
  decide

/-- C6: with line 0 (button 1 on PA0) pending on entry and ODR bit 0 clear
(its reset value, preserved by the whole program), `EXTI0_1_IRQHandler`
switches the PA3 indicator on at its first statement and holds it on
through its delays, clears the line-0 pending flag before returning, and
the next main-loop iteration puts the core back to sleep with the wake flag
clear; in the active-sleep mode the edge-interrupt source is one that
resumes the loop. -/
theorem scenarioA_line0_sets_indicator_clears_pr0_then_sleeps
    (s : MachineState) (hp : s.pr.testBit 0 = true)
    (hodr : s.odr.testBit 0 = false) :
    ∃ tr s', execTrace pa0Branch s = some tr ∧
      EXTI0_1_IRQHandler s = some s' ∧
      (∀ t ∈ tr, t.odr.testBit 3 = true) ∧
      s'.odr.testBit 3 = true ∧ s'.pr.testBit 0 = false ∧
      loopResumes PowerMode.sleepMode WakeSource.edgeInterrupt = true ∧
      ∃ s'', exec mainLoopBody s' = some s'' ∧ s''.sleeping = true ∧
        s''.wuf = false := by
  have hmod : ¬s.odr % 2 = 1 := mod_two_ne_one_of_testBit0 s.odr hodr
  have hand : s.pr &&& EXTI_PR_PR0 ≠ 0 := by
    simpa [EXTI_PR_PR0] using (and_one_ne s.pr).2 hp
  have hbit3 : (s.odr ||| 56).testBit 3 = true := by
    rw [Nat.testBit_lor]
    simp [show Nat.testBit 56 3 = true from rfl]
  have hexec : EXTI0_1_IRQHandler s =
      some { s with odr := s.odr ||| 56,
                    pr := clearMask s.pr (s.pr ||| 1) } := by
    unfold EXTI0_1_IRQHandler
    rw [if_pos hand, exec_pa0_eq, if_neg hmod]
  refine ⟨_, _, execTrace_pa0_eq s hmod, hexec, ?_, ?_, ?_, by decide,
    _, exec_mainLoopBody_eq _, rfl, rfl⟩
  · intro t ht
    simp only [List.mem_cons, List.not_mem_nil, or_false] at ht
    rcases ht with h | h | h | h | h <;> subst h <;> simpa using hbit3
  · simpa using hbit3
  · simp [clearMask_self_or]

/-- Witness for C6: scenario A run from the concrete reset-like state with
line 0 pending. -/
theorem scenarioA_line0_sets_indicator_clears_pr0_then_sleeps_witness :
    ∃ tr s', execTrace pa0Branch c6In = some tr ∧
      EXTI0_1_IRQHandler c6In = some s' ∧
      (∀ t ∈ tr, t.odr.testBit 3 = true) ∧
      s'.odr.testBit 3 = true ∧ s'.pr.testBit 0 = false ∧
      loopResumes PowerMode.sleepMode WakeSource.edgeInterrupt = true ∧
      ∃ s'', exec mainLoopBody s' = some s'' ∧ s''.sleeping = true ∧
        s''.wuf = false :=
  scenarioA_line0_sets_indicator_clears_pr0_then_sleeps c6In (by decide)
    (by decide)

/-- Setting ODR bit 4 via `|=`. -/
theorem testBit4_or16 (x : Nat) : (x ||| 16).testBit 4 = true := by
  rw [Nat.testBit_lor]
  simp [show Nat.testBit 16 4 = true from rfl]

/-- Clearing ODR bit 4 via `&= ~`. -/
theorem testBit4_clearMask16 (x : Nat) :
    (clearMask x 16).testBit 4 = false := by
  rw [clearMask_eq_ldiff, Nat.testBit_ldiff]
  simp [show Nat.testBit 16 4 = true from rfl]

/-- Trace of the TIM14 handler body: set, delay, clear, pause, set, delay,
clear, status write. -/
theorem execTrace_tim14_eq (s : MachineState) :
    execTrace tim14Body s =
      some [{ s with odr := s.odr ||| 16 },
            { s with odr := s.odr ||| 16 },
            { s with odr := clearMask (s.odr ||| 16) 16 },
            { s with odr := clearMask (s.odr ||| 16) 16 },
            { s with odr := clearMask (s.odr ||| 16) 16 ||| 16 },
            { s with odr := clearMask (s.odr ||| 16) 16 ||| 16 },
            { s with odr := clearMask (clearMask (s.odr ||| 16) 16 ||| 16) 16 },
            { s with odr := clearMask (clearMask (s.odr ||| 16) 16 ||| 16) 16,
                     timSr := s.timSr &&& clearMask s.timSr 1 }] := by
  simp [execTrace, applyOp, tim14Body, GPIO_ODR_4, TIM_SR_UIF]

/-- The main `while(1)` loop can always run another iteration: no iteration
of the body diverges or leaves the loop. -/
theorem mainLoopRun_isSome (n : Nat) :
    ∀ s : MachineState, (mainLoopRun n s).isSome = true := by
  induction n with
  | zero => intro s; rfl
  | succ n ih =>
    intro s
    simp only [mainLoopRun, exec_mainLoopBody_eq]
    exact ih _

/-- C7: every invocation of `TIM14_IRQHandler` drives the PA4 indicator
through the pattern on, on, off, off, on, on, off, off — exactly two ON
pulses separated by a pause — and returns with PA4 off; initialization
programs the prescaler to 8000-1 and the auto-reload register to 10000-1,
which at the 8 MHz clock is a 10-second overflow period; and the main loop
admits another iteration after any number of iterations (it never exits). -/
theorem tim14_flashes_twice_ten_second_period_loop_never_exits :
    (∀ s : MachineState, ∃ tr s',
      execTrace tim14Body s = some tr ∧
      tr.map (fun t => t.odr.testBit 4) =
        [true, true, false, false, true, true, false, false] ∧
      TIM14_IRQHandler s = some s' ∧ s'.odr.testBit 4 = false) ∧
    countPulses [true, true, false, false, true, true, false, false] = 2 ∧
    InitStep.tim14Psc (8000 - 1) ∈ initSteps timerSleepConfig ∧
    InitStep.tim14Arr (10000 - 1) ∈ initSteps timerSleepConfig ∧
    8000 * 10000 = 10 * 8000000 ∧
    ∀ (n : Nat) (s : MachineState), (mainLoopRun n s).isSome = true := by
  refine ⟨fun s => ⟨_, _, execTrace_tim14_eq s, ?_, exec_tim14_eq s, ?_⟩,
    by decide, by decide, by decide, by norm_num, mainLoopRun_isSome⟩
  · simp [testBit4_or16, testBit4_clearMask16,
      show Nat.testBit 16 4 = true from rfl]
  · exact testBit4_clearMask16 _

/-- C8: in the edge-interrupt configuration, initialization assigns the
EXTI2_3 interrupt (PA2, button 3) NVIC priority 0 and the EXTI0_1 interrupt
(PA0/PA1) priority 1; under the NVIC rule that a numerically lower value
preempts, EXTI2_3 can preempt EXTI0_1 mid-delay but not vice versa. -/
theorem exti23_priority_preempts_exti01 :
    lastPrioritySet (initSteps edgeSleepConfig) Irq.exti23 = some 0 ∧
    lastPrioritySet (initSteps edgeSleepConfig) Irq.exti01 = some 1 ∧
    canPreempt 0 1 = true ∧ canPreempt 1 0 = false := by
  decide

/-- C3: for every selectable (power mode, wake source) pair, the main loop
resumes after a wake event exactly when the pair is compatible per the
spec's policy table; in particular the periodic-tick + standby pair never
resumes; and no initialization step inspects or rejects the combination. -/
theorem resume_iff_compatible_no_config_check :
    (∀ (m : PowerMode) (w : WakeSource),
      loopResumes m w = specCompatible m w) ∧
    loopResumes PowerMode.standbyMode WakeSource.periodicTick = false ∧
    (∀ c : BuildConfig, detectsMisconfig c = false) := by
  refine ⟨fun m w => ?_, rfl, fun c => ?_⟩
  · cases m <;> cases w <;> rfl
  · simp [detectsMisconfig, stepChecksConfig]

/-- A statement that cannot raise ODR bit 0 preserves a clear ODR bit 0. -/
theorem applyOp_preserves_odr_bit0 (op : Op) (s s' : MachineState)
    (hm : (odrSetMask op).testBit 0 = false)
    (h : applyOp op s = some s') (h0 : s.odr.testBit 0 = false) :
    s'.odr.testBit 0 = false := by
  cases op with
  | setODR m =>
    simp only [applyOp, Option.some_inj] at h
    subst h
    simp only [odrSetMask] at hm
    simp [Nat.testBit_lor, h0, hm]
    exact ⟨mod_two_eq_zero_of_testBit0 _ h0, mod_two_eq_zero_of_testBit0 _ hm⟩
  | clearODR m =>
    simp only [applyOp, Option.some_inj] at h
    subst h
    show (clearMask s.odr m).testBit 0 = false
    rw [clearMask_eq_ldiff, Nat.testBit_ldiff]
    simp [h0]
  | toggleODR m =>
    simp only [applyOp, Option.some_inj] at h
    subst h
    simp only [odrSetMask] at hm
    simp [Nat.testBit_xor, h0, hm]
    have h1 := mod_two_eq_zero_of_testBit0 _ h0
    have h2 := mod_two_eq_zero_of_testBit0 _ hm
    omega
  | delay n =>
    simp only [applyOp, Option.some_inj] at h
    subst h
    exact h0
  | waitWhileODR m =>
    simp only [applyOp] at h
    split at h
    · exact absurd h (by simp)
    · rw [Option.some_inj] at h
      subst h
      exact h0
  | waitUntilIDR m =>
    simp only [applyOp] at h
    split at h
    · exact absurd h (by simp)
    · rw [Option.some_inj] at h
      subst h
      exact h0
  | prW1 m =>
    simp only [applyOp, Option.some_inj] at h
    subst h
    exact h0
  | srW0 m =>
    simp only [applyOp, Option.some_inj] at h
    subst h
    exact h0
  | clearCWUF =>
    simp only [applyOp, Option.some_inj] at h
    subst h
    exact h0
  | wfi =>
    simp only [applyOp, Option.some_inj] at h
    subst h
    exact h0

/-- C10: the PA0 release-wait loop of `EXTI0_1_IRQHandler` spins on
`GPIOA->ODR & GPIO_IDR_0` — the output register, not the input register;
ODR bit 0 is clear at reset and no statement of the program can raise it,
so whenever ODR bit 0 is clear the spin condition is already false and the
loop exits at once: the handler never actually waits for the PA0 button.
The PA2 handler, by contrast, polls `GPIOA->IDR`. -/
theorem pa0_release_wait_reads_odr_never_waits :
    Op.waitWhileODR GPIO_IDR_0 ∈ pa0Branch ∧
    resetState.odr.testBit 0 = false ∧
    (∀ op ∈ allProgramOps, (odrSetMask op).testBit 0 = false) ∧
    (∀ (op : Op) (s s' : MachineState), (odrSetMask op).testBit 0 = false →
      applyOp op s = some s' → s.odr.testBit 0 = false →
      s'.odr.testBit 0 = false) ∧
    (∀ s : MachineState, s.odr.testBit 0 = false →
      applyOp (Op.waitWhileODR GPIO_IDR_0) s = some s) ∧
    Op.waitUntilIDR GPIO_IDR_2 ∈ exti23Body := by
  refine ⟨by decide, by decide, by decide, applyOp_preserves_odr_bit0,
    ?_, by decide⟩
  intro s h0
  simp [applyOp, GPIO_IDR_0, and_one_eq_zero s.odr h0]

/-- Witness for C10: the invariant and the immediate loop exit at concrete
inputs — the LED write raises no ODR bit 0, and from the reset state the
release-wait statement returns at once. -/
theorem pa0_release_wait_reads_odr_never_waits_witness :
    (odrSetMask (Op.setODR 56)).testBit 0 = false ∧
    c10Out.odr.testBit 0 = false ∧
    applyOp (Op.waitWhileODR GPIO_IDR_0) resetState = some resetState :=
  ⟨pa0_release_wait_reads_odr_never_waits.2.2.1 (Op.setODR 56) (by decide),
   pa0_release_wait_reads_odr_never_waits.2.2.2.1 (Op.setODR 56) resetState
     c10Out (by decide) (by decide) (by decide),
   pa0_release_wait_reads_odr_never_waits.2.2.2.2.1 resetState (by decide)⟩
